/- Verification development for the CloudFormation custom-resource
   response runtime of this repository, embedded from
   packages/aws-cdk-lib/custom-resources/lib/provider-framework/runtime/cfn-response.ts.
   Stateful behaviour (event mutation, log output, submitted responses,
   thrown retry signals, HTTP delivery attempts) is made explicit by
   returning result records that carry the final event, the list of log
   entries, the list of submitted responses, and the delivery trace. -/
import Mathlib

/-- Sentinel marker assigned to a failed CREATE so that the subsequent
DELETE is ignored (source: constant CREATE_FAILED_PHYSICAL_ID_MARKER). -/
def CREATE_FAILED_PHYSICAL_ID_MARKER : String :=
  "AWSCDK::CustomResourceProviderFramework::CREATE_FAILED"

/-- Sentinel marker substituted when an event has no physical resource id
(source: constant MISSING_PHYSICAL_ID_MARKER). -/
def MISSING_PHYSICAL_ID_MARKER : String :=
  "AWSCDK::CustomResourceProviderFramework::MISSING_PHYSICAL_ID"

/-- JavaScript truthiness test for an optional string field: `undefined`
and the empty string are both falsy. -/
def jsFalsyStr : Option String → Bool
  | none => true
  | some s => s.isEmpty

/-- JavaScript `a || b` for an optional string `a`: yields `b` when `a` is
`undefined` or the empty string, otherwise the string held by `a`. -/
def jsOrStr (a : Option String) (b : String) : String :=
  match a with
  | none => b
  | some s => if s.isEmpty then b else s

/-- Response status, source type union between SUCCESS and FAILED. -/
inductive CfnStatus where
  | SUCCESS
  | FAILED
deriving DecidableEq

/-- The string a status stringifies to on the wire and in defaults. -/
def CfnStatus.toStr : CfnStatus → String
  | CfnStatus.SUCCESS => "SUCCESS"
  | CfnStatus.FAILED => "FAILED"

/-- Source interface CloudFormationResponseOptions: both fields optional. -/
structure CloudFormationResponseOptions where
  reason : Option String := none
  noEcho : Option Bool := none
deriving DecidableEq

/-- The incoming event. Source interface CloudFormationEventContext plus
the RequestType field that safeHandler reads off the untyped event. -/
structure CfnEvent where
  RequestType : String
  StackId : String
  RequestId : String
  PhysicalResourceId : Option String := none
  LogicalResourceId : String
  ResponseURL : String
  Data : Option (List (String × String)) := none
deriving DecidableEq

/-- The wire record submitResponse builds (source local `json` of type
CloudFormationCustomResourceResponse). -/
structure StatusPayload where
  Status : CfnStatus
  Reason : String
  StackId : String
  RequestId : String
  PhysicalResourceId : String
  LogicalResourceId : String
  NoEcho : Option Bool
  Data : Option (List (String × String))
deriving DecidableEq

/-- The payload construction at the top of submitResponse: Reason defaults
to the stringified status via JavaScript `||`, PhysicalResourceId defaults
to the missing-id sentinel via JavaScript `||`. -/
def buildPayload (status : CfnStatus) (event : CfnEvent)
    (options : CloudFormationResponseOptions) : StatusPayload :=
  { Status := status
    Reason := jsOrStr options.reason status.toStr
    StackId := event.StackId
    RequestId := event.RequestId
    PhysicalResourceId := jsOrStr event.PhysicalResourceId MISSING_PHYSICAL_ID_MARKER
    LogicalResourceId := event.LogicalResourceId
    NoEcho := options.noEcho
    Data := event.Data }

/-- Source function redactDataFromPayload: deep-copies the payload (the
JSON round trip is the identity on this pure model, and the input value is
left untouched by construction) and, when a Data map is present, replaces
every value in the copy by the fixed masking token, keeping the keys. -/
def redactDataFromPayload (payload : StatusPayload) : StatusPayload :=
  match payload.Data with
  | none => payload
  | some kvs => { payload with Data := some (kvs.map (fun kv => (kv.1, "*****"))) }

/-- The components of node url.parse that the source reads: protocol
(with trailing colon), hostname (port stripped), pathname (no query),
and path (pathname plus query). -/
structure ParsedUrl where
  protocol : String
  hostname : String
  pathname : String
  path : String
deriving DecidableEq

/-- Splits a character list at the first occurrence of the "://" scheme
separator, returning the part before it and the part after it. -/
def breakOnSchemeSep : List Char → Option (List Char × List Char)
  | [] => none
  | c :: cs =>
    match c, cs with
    | ':', '/' :: '/' :: rest => some ([], rest)
    | _, _ => (breakOnSchemeSep cs).map (fun p => (c :: p.1, p.2))

/-- Model of node url.parse for the scheme://host/path?query URLs this
runtime receives: protocol keeps its trailing colon, hostname drops any
port, pathname excludes the query, path includes it. -/
def urlParse (u : String) : ParsedUrl :=
  match breakOnSchemeSep u.data with
  | some (scheme, rest) =>
    let hostport := rest.takeWhile (fun c => c ≠ '/' && c ≠ '?' && c ≠ '#')
    let tail := rest.drop hostport.length
    let pathAndQuery := if tail.isEmpty then ['/'] else tail
    { protocol := String.mk scheme ++ ":"
      hostname := String.mk (hostport.takeWhile (fun c => c ≠ ':'))
      pathname := String.mk (pathAndQuery.takeWhile (fun c => c ≠ '?'))
      path := String.mk pathAndQuery }
  | none => { protocol := "", hostname := "", pathname := u, path := u }

/-- The log-safe URL the source interpolates:
protocol ++ "//" ++ hostname ++ "/" ++ pathname ++ "?***". -/
def loggingSafeUrlOf (u : String) : String :=
  let parsedUrl := urlParse u
  parsedUrl.protocol ++ "//" ++ parsedUrl.hostname ++ "/" ++ parsedUrl.pathname ++ "?***"

/-- Minimal JSON string escaping used by the body serialization model. -/
def jsonEscape (s : String) : String :=
  String.mk
    (s.data.foldr
      (fun c acc =>
        if c = '\"' then '\\' :: '\"' :: acc
        else if c = '\\' then '\\' :: '\\' :: acc
        else c :: acc)
      [])

/-- A JSON string literal. -/
def jsonStr (s : String) : String := "\"" ++ jsonEscape s ++ "\""

/-- A JSON boolean literal. -/
def jsonBool (b : Bool) : String := if b then "true" else "false"

/-- Model of JSON.stringify on the wire record: fields in declaration
order, fields holding `undefined` (NoEcho, Data when absent) dropped. -/
def stringifyPayload (p : StatusPayload) : String :=
  let base :=
    [("Status", jsonStr p.Status.toStr),
     ("Reason", jsonStr p.Reason),
     ("StackId", jsonStr p.StackId),
     ("RequestId", jsonStr p.RequestId),
     ("PhysicalResourceId", jsonStr p.PhysicalResourceId),
     ("LogicalResourceId", jsonStr p.LogicalResourceId)]
  let withNoEcho := base ++
    (match p.NoEcho with
     | none => []
     | some b => [("NoEcho", jsonBool b)])
  let withData := withNoEcho ++
    (match p.Data with
     | none => []
     | some kvs =>
       [("Data",
         "\x7b" ++ String.intercalate ","
           (kvs.map (fun kv => jsonStr kv.1 ++ ":" ++ jsonStr kv.2)) ++ "\x7d")])
  "\x7b" ++
    String.intercalate "," (withData.map (fun kv => jsonStr kv.1 ++ ":" ++ kv.2)) ++
    "\x7d"

/-- The retry options record the source passes to the retry wrapper. -/
structure RetryOptions where
  attempts : Nat
  sleep : Nat
deriving DecidableEq

/-- Modelled from the spec: the body of `withRetries` lives in
runtime/util.ts, which is not among the sources; the spec states it makes
up to `attempts` sequential delivery attempts with a fixed `sleep`
millisecond delay between consecutive attempts, stops at the first
success, and propagates the error when every attempt fails. `call i`
tells whether the i-th attempt (1-based) succeeds; the first argument of
type Nat is the number of retries still allowed after the current
attempt. The result is the number of attempts made, the list of sleeps
performed between consecutive attempts, and whether delivery ultimately
succeeded. -/
def retryRun (sleepMs : Nat) (call : Nat → Bool) : Nat → Nat → Nat × List Nat × Bool
  | 0, i => (1, [], call i)
  | Nat.succ n, i =>
    if call i then (1, [], true)
    else
      let r := retryRun sleepMs call n (i + 1)
      (r.1 + 1, sleepMs :: r.2.1, r.2.2)

/-- Modelled from the spec: the bounded-retry wrapper applied to a
transport oracle, starting at attempt 1 with attempts - 1 retries
allowed after it, so at most `attempts` attempts in total. -/
def withRetries (opts : RetryOptions) (call : Nat → Bool) : Nat × List Nat × Bool :=
  retryRun opts.sleep call (opts.attempts - 1) 1

/-- One log line emitted by submitResponse: message, log-safe URL, and
the (possibly redacted) payload echoed alongside. -/
structure SubmitLog where
  message : String
  url : String
  payload : StatusPayload
deriving DecidableEq

/-- The HTTP request options the source hands to the transport. -/
structure HttpRequestOptions where
  hostname : String
  path : String
  method : String
  contentType : String
  contentLength : Nat
deriving DecidableEq

/-- Everything observable about one submitResponse call: the payload it
built, the log lines it emitted, the request it issued, the serialized
body, and the delivery trace of the retry wrapper. -/
structure SubmitOutcome where
  payload : StatusPayload
  logs : List SubmitLog
  request : HttpRequestOptions
  body : String
  attemptsMade : Nat
  sleeps : List Nat
  delivered : Bool

/-- Source function submitResponse, with the transport made explicit:
`transport i` tells whether the i-th delivery attempt succeeds. Builds
the payload, emits exactly one log line (redacting Data values when
noEcho is set), and delivers the body by PUT under the bounded-retry
wrapper with attempts 5 and sleep 1000. -/
def submitResponse (status : CfnStatus) (event : CfnEvent)
    (options : CloudFormationResponseOptions) (transport : Nat → Bool) :
    SubmitOutcome :=
  let json := buildPayload status event options
  let responseBody := stringifyPayload json
  let parsedUrl := urlParse event.ResponseURL
  let safeUrl := loggingSafeUrlOf event.ResponseURL
  let logs :=
    if options.noEcho = some true then
      [{ message := "submit redacted response to cloudformation", url := safeUrl,
         payload := redactDataFromPayload json : SubmitLog }]
    else
      [{ message := "submit response to cloudformation", url := safeUrl,
         payload := json : SubmitLog }]
  let retryOptions : RetryOptions := { attempts := 5, sleep := 1000 }
  let r := withRetries retryOptions transport
  { payload := json
    logs := logs
    request :=
      { hostname := parsedUrl.hostname
        path := parsedUrl.path
        method := "PUT"
        contentType := ""
        contentLength := responseBody.utf8ByteSize }
    body := responseBody
    attemptsMade := r.1
    sleeps := r.2.1
    delivered := r.2.2 }

/-- The disposition of one invocation of the inner handler: normal
return, the distinguished Retry signal, or any other error (carrying the
stack trace and the compact message the source may report). -/
inductive HandlerOutcome where
  | success
  | retrySignal (message : String)
  | failure (stack : String) (message : String)
deriving DecidableEq

/-- The log lines safeHandler itself can emit, one tag per source call
site. -/
inductive SafeLog where
  | ignoringDeleteAfterFailedCreate
  | retryRequested
  | createFailedMarkerAssigned
  | malformedEventMissingPhysicalResourceId
deriving DecidableEq

/-- Everything observable about one run of the wrapped handler: whether
the inner handler ran, the event after any mutation, the submitResponse
calls made (status, event, options), the rethrown retry message if any,
and the log lines. -/
structure SafeHandlerResult where
  blockInvoked : Bool
  finalEvent : CfnEvent
  responses : List (CfnStatus × CfnEvent × CloudFormationResponseOptions)
  thrownRetry : Option String
  logs : List SafeLog
deriving DecidableEq

/-- Source function safeHandler: wraps the inner handler `block` with the
delete-after-failed-create short circuit, retry propagation, the
create-failed sentinel assignment, the malformed-event warning, and
FAILED reporting. `includeStackTraces` is the process-wide toggle
selecting stack versus message for the failure reason. -/
def safeHandler (includeStackTraces : Bool) (block : CfnEvent → HandlerOutcome)
    (event : CfnEvent) : SafeHandlerResult :=
  if event.RequestType = "Delete" ∧
      event.PhysicalResourceId = some CREATE_FAILED_PHYSICAL_ID_MARKER then
    { blockInvoked := false
      finalEvent := event
      responses := [(CfnStatus.SUCCESS, event, {})]
      thrownRetry := none
      logs := [SafeLog.ignoringDeleteAfterFailedCreate] }
  else
    match block event with
    | HandlerOutcome.success =>
      { blockInvoked := true, finalEvent := event, responses := [],
        thrownRetry := none, logs := [] }
    | HandlerOutcome.retrySignal m =>
      { blockInvoked := true, finalEvent := event, responses := [],
        thrownRetry := some m, logs := [SafeLog.retryRequested] }
    | HandlerOutcome.failure stack message =>
      let branchLogs :=
        if jsFalsyStr event.PhysicalResourceId then
          if event.RequestType = "Create" then
            [SafeLog.createFailedMarkerAssigned]
          else
            [SafeLog.malformedEventMissingPhysicalResourceId]
        else []
      let eventAfter :=
        if jsFalsyStr event.PhysicalResourceId ∧ event.RequestType = "Create" then
          { event with PhysicalResourceId := some CREATE_FAILED_PHYSICAL_ID_MARKER }
        else event
      { blockInvoked := true
        finalEvent := eventAfter
        responses := [(CfnStatus.FAILED, eventAfter,
          { reason := some (if includeStackTraces then stack else message) })]
        thrownRetry := none
        logs := branchLogs }

/-- Fixture: a Delete event carrying the create-failed sentinel. -/
def evDeleteAfterFailedCreate : CfnEvent :=
  { RequestType := "Delete", StackId := "stack", RequestId := "req",
    PhysicalResourceId := some CREATE_FAILED_PHYSICAL_ID_MARKER,
    LogicalResourceId := "L", ResponseURL := "http://host/path?sig=1" }

/-- Fixture: a Create event with no physical resource id. -/
def evCreateNoPid : CfnEvent :=
  { RequestType := "Create", StackId := "stack", RequestId := "req",
    LogicalResourceId := "L", ResponseURL := "http://host/path?sig=1" }

/-- Fixture: a Create event that already knows a physical resource id. -/
def evCreateWithPid : CfnEvent :=
  { RequestType := "Create", StackId := "stack", RequestId := "req",
    PhysicalResourceId := some "bucket",
    LogicalResourceId := "L", ResponseURL := "http://host/path?sig=1" }

/-- Fixture: an Update event with no physical resource id. -/
def evUpdateNoPid : CfnEvent :=
  { RequestType := "Update", StackId := "stack", RequestId := "req",
    LogicalResourceId := "L", ResponseURL := "http://host/path?sig=1" }

/-- Fixture: an Update event whose physical resource id is the empty
string. -/
def evEmptyPid : CfnEvent :=
  { RequestType := "Update", StackId := "stack", RequestId := "req",
    PhysicalResourceId := some "",
    LogicalResourceId := "L", ResponseURL := "http://host/path?sig=1" }

/-- Fixture: the event of the spec submit scenario, callback URL
http://x/y?t=1. -/
def evScenario : CfnEvent :=
  { RequestType := "Update", StackId := "s", RequestId := "r",
    LogicalResourceId := "L", ResponseURL := "http://x/y?t=1" }

/-- Fixture: an inner handler that returns normally. -/
def blockOk : CfnEvent → HandlerOutcome := fun _ => HandlerOutcome.success

/-- Fixture: an inner handler that raises the Retry signal. -/
def blockRetries : CfnEvent → HandlerOutcome :=
  fun _ => HandlerOutcome.retrySignal "wait"

/-- Fixture: an inner handler that fails with an ordinary error. -/
def blockFails : CfnEvent → HandlerOutcome :=
  fun _ => HandlerOutcome.failure "stacktrace" "boom"

/-- Fixture: a transport that fails the first four delivery attempts and
succeeds on the fifth. -/
def transportFifth : Nat → Bool := fun i => i = 5

lemma jsOrStr_of_falsy (a : Option String) (b : String)
    (h : jsFalsyStr a = true) : jsOrStr a b = b := by
  cases a with
  | none => rfl
  | some s =>
    simp only [jsFalsyStr] at h
    simp [jsOrStr, h]

lemma jsFalsy_ne_create_failed_marker (a : Option String)
    (h : jsFalsyStr a = true) : a ≠ some CREATE_FAILED_PHYSICAL_ID_MARKER := by
  intro he
  rw [he] at h
  simp only [jsFalsyStr] at h
  exact absurd h (by decide)

lemma jsOrStr_ne_empty (a : Option String) (b : String) (hb : b ≠ "") :
    jsOrStr a b ≠ "" := by
  cases a with
  | none => exact hb
  | some s =>
    by_cases hs : s.isEmpty
    · simp [jsOrStr, hs]; exact hb
    · simp [jsOrStr, hs]
      intro he
      rw [he] at hs
      exact hs (by decide)

lemma map_fst_mask (l : List (String × String)) :
    (l.map (fun kv => (kv.1, "*****"))).map Prod.fst = l.map Prod.fst := by
  induction l with
  | nil => rfl
  | cons a t ih => simp [ih]

lemma retryRun_fst_le (s : Nat) (c : Nat → Bool) :
    ∀ n i, (retryRun s c n i).1 ≤ n + 1 := by
  intro n
  induction n with
  | zero => intro i; simp [retryRun]
  | succ n ih =>
    intro i
    by_cases h : c i
    · simp [retryRun, h]
    · simp only [retryRun, h, if_false, Bool.false_eq_true]
      have := ih (i + 1)
      omega

lemma retryRun_fst_pos (s : Nat) (c : Nat → Bool) (n i : Nat) :
    1 ≤ (retryRun s c n i).1 := by
  rcases n with _ | m
  · simp [retryRun]
  · by_cases h : c i
    · simp [retryRun, h]
    · simp only [retryRun, h, if_false, Bool.false_eq_true]
      omega

lemma retryRun_sleeps_replicate (s : Nat) (c : Nat → Bool) :
    ∀ n i, (retryRun s c n i).2.1 =
      List.replicate ((retryRun s c n i).1 - 1) s := by
  intro n
  induction n with
  | zero => intro i; simp [retryRun]
  | succ n ih =>
    intro i
    by_cases h : c i
    · simp [retryRun, h]
    · simp only [retryRun, h, if_false, Bool.false_eq_true]
      rw [Nat.add_sub_cancel, ih (i + 1), ← List.replicate_succ]
      have hpos := retryRun_fst_pos s c n (i + 1)
      have heq : (retryRun s c n (i + 1)).1 - 1 + 1 = (retryRun s c n (i + 1)).1 := by
        omega
      rw [heq]

lemma retryRun_all_fail (s : Nat) (c : Nat → Bool) :
    ∀ n i, (∀ j, i ≤ j → j ≤ i + n → c j = false) →
      (retryRun s c n i).2.2 = false := by
  intro n
  induction n with
  | zero =>
    intro i h
    simpa [retryRun] using h i le_rfl (by omega)
  | succ n ih =>
    intro i h
    have hci : c i = false := h i le_rfl (by omega)
    simp only [retryRun, hci, if_false, Bool.false_eq_true]
    exact ih (i + 1) (fun j hj1 hj2 => h j (by omega) (by omega))

lemma retryRun_first_success (s : Nat) (c : Nat → Bool) :
    ∀ n i k, i ≤ k → k ≤ i + n →
      (∀ j, i ≤ j → j < k → c j = false) → c k = true →
      (retryRun s c n i).2.2 = true ∧ (retryRun s c n i).1 = k - i + 1 := by
  intro n
  induction n with
  | zero =>
    intro i k h1 h2 _ h4
    have : k = i := by omega
    subst this
    simp [retryRun, h4]
  | succ n ih =>
    intro i k h1 h2 h3 h4
    by_cases hk : k = i
    · subst hk
      simp [retryRun, h4]
    · have hci : c i = false := h3 i le_rfl (by omega)
      simp only [retryRun, hci, if_false, Bool.false_eq_true]
      obtain ⟨ha, hb⟩ :=
        ih (i + 1) k (by omega) (by omega)
          (fun j hj1 hj2 => h3 j (by omega) hj2) h4
      refine ⟨ha, ?_⟩
      rw [hb]
      omega

lemma empty_string_isEmpty : ("" : String).isEmpty = true := by decide

lemma isEmpty_false_of_ne (s : String) (h : s ≠ "") : s.isEmpty = false := by
  cases hx : s.isEmpty
  · rfl
  · exact absurd ((String.isEmpty_iff s).mp hx) h

/-- C1: for every event with RequestType Delete whose PhysicalResourceId
equals the create-failed sentinel, the handler returned by safeHandler
never invokes the inner handler and submits exactly one SUCCESS response
for that event. -/
theorem c1_delete_after_failed_create_short_circuits
    (inc : Bool) (block : CfnEvent → HandlerOutcome) (event : CfnEvent)
    (hreq : event.RequestType = "Delete")
    (hpid : event.PhysicalResourceId = some CREATE_FAILED_PHYSICAL_ID_MARKER) :
    (safeHandler inc block event).blockInvoked = false ∧
    (safeHandler inc block event).responses = [(CfnStatus.SUCCESS, event, {})] := by
  simp [safeHandler, hreq, hpid]

/-- Witness for C1 at a concrete Delete event carrying the sentinel. -/
theorem c1_witness :
    (safeHandler true blockOk evDeleteAfterFailedCreate).blockInvoked = false ∧
    (safeHandler true blockOk evDeleteAfterFailedCreate).responses =
      [(CfnStatus.SUCCESS, evDeleteAfterFailedCreate, {})] :=
  c1_delete_after_failed_create_short_circuits true blockOk
    evDeleteAfterFailedCreate rfl rfl

/-- C2: for every Create event with no PhysicalResourceId whose inner
handler fails with a non-Retry error, after handling the event carries
the create-failed sentinel and a FAILED response is submitted. -/
theorem c2_create_failure_assigns_marker_and_reports_failed
    (inc : Bool) (block : CfnEvent → HandlerOutcome) (event : CfnEvent)
    (stack message : String)
    (hreq : event.RequestType = "Create")
    (hpid : event.PhysicalResourceId = none)
    (hblock : block event = HandlerOutcome.failure stack message) :
    (safeHandler inc block event).finalEvent.PhysicalResourceId =
      some CREATE_FAILED_PHYSICAL_ID_MARKER ∧
    (safeHandler inc block event).responses.map (fun r => r.1) = [CfnStatus.FAILED] := by
  simp [safeHandler, hreq, hpid, hblock, jsFalsyStr]

/-- Witness for C2 at a concrete Create event with no physical id and a
failing inner handler. -/
theorem c2_witness :
    (safeHandler true blockFails evCreateNoPid).finalEvent.PhysicalResourceId =
      some CREATE_FAILED_PHYSICAL_ID_MARKER ∧
    (safeHandler true blockFails evCreateNoPid).responses.map (fun r => r.1) =
      [CfnStatus.FAILED] :=
  c2_create_failure_assigns_marker_and_reports_failed true blockFails
    evCreateNoPid "stacktrace" "boom" rfl rfl rfl

/-- C3: whenever the inner handler is actually invoked and raises the
Retry signal, the wrapper rethrows that same signal and submits no
response at all. -/
theorem c3_retry_rethrown_without_report
    (inc : Bool) (block : CfnEvent → HandlerOutcome) (event : CfnEvent)
    (m : String)
    (hblock : block event = HandlerOutcome.retrySignal m)
    (hinvoked : (safeHandler inc block event).blockInvoked = true) :
    (safeHandler inc block event).thrownRetry = some m ∧
    (safeHandler inc block event).responses = [] := by
  by_cases h : event.RequestType = "Delete" ∧
      event.PhysicalResourceId = some CREATE_FAILED_PHYSICAL_ID_MARKER
  · exfalso
    simp [safeHandler, h] at hinvoked
  · simp [safeHandler, h, hblock]

/-- Witness for C3 at a concrete Create event and a retrying handler. -/
theorem c3_witness :
    (safeHandler true blockRetries evCreateNoPid).thrownRetry = some "wait" ∧
    (safeHandler true blockRetries evCreateNoPid).responses = [] :=
  c3_retry_rethrown_without_report true blockRetries evCreateNoPid "wait" rfl rfl

/-- Counterexample for C4 as stated: with the empty string supplied as
options.reason, the built Reason is the stringified status, not the
supplied reason, because the source uses JavaScript disjunction. -/
theorem c4_counterexample_empty_reason_not_kept :
    (buildPayload CfnStatus.SUCCESS evScenario { reason := some "" }).Reason =
      "SUCCESS" ∧
    ¬ (buildPayload CfnStatus.SUCCESS evScenario { reason := some "" }).Reason =
      "" := by
  decide

/-- C4 amended: the StatusPayload built by submitResponse never has an
empty PhysicalResourceId, substituting the missing-id sentinel when the
event id is absent; Reason equals the supplied options.reason whenever
that reason is non-empty, and defaults to the stringified status when no
reason is supplied (and also when the supplied reason is empty, by the
counterexample). -/
theorem c4_payload_pid_nonempty_and_reason_defaults
    (status : CfnStatus) (event : CfnEvent)
    (options : CloudFormationResponseOptions) :
    (buildPayload status event options).PhysicalResourceId ≠ "" ∧
    (event.PhysicalResourceId = none →
      (buildPayload status event options).PhysicalResourceId =
        MISSING_PHYSICAL_ID_MARKER) ∧
    (options.reason = none →
      (buildPayload status event options).Reason = status.toStr) ∧
    (∀ r, options.reason = some r → r ≠ "" →
      (buildPayload status event options).Reason = r) := by
  refine ⟨jsOrStr_ne_empty _ _ (by decide), ?_, ?_, ?_⟩
  · intro h
    simp [buildPayload, jsOrStr, h]
  · intro h
    simp [buildPayload, jsOrStr, h]
  · intro r hr hne
    simp [buildPayload, jsOrStr, hr, isEmpty_false_of_ne r hne]

/-- Witness for C4 amended at concrete inputs discharging each
hypothesis. -/
theorem c4_witness :
    (buildPayload CfnStatus.FAILED evCreateNoPid
      { reason := some "boom" }).PhysicalResourceId =
      MISSING_PHYSICAL_ID_MARKER ∧
    (buildPayload CfnStatus.SUCCESS evCreateNoPid {}).Reason =
      CfnStatus.SUCCESS.toStr ∧
    (buildPayload CfnStatus.FAILED evCreateNoPid
      { reason := some "boom" }).Reason = "boom" :=
  ⟨(c4_payload_pid_nonempty_and_reason_defaults CfnStatus.FAILED evCreateNoPid
      { reason := some "boom" }).2.1 rfl,
   (c4_payload_pid_nonempty_and_reason_defaults CfnStatus.SUCCESS evCreateNoPid
      {}).2.2.1 rfl,
   (c4_payload_pid_nonempty_and_reason_defaults CfnStatus.FAILED evCreateNoPid
      { reason := some "boom" }).2.2.2 "boom" rfl (by decide)⟩

/-- C5: submitResponse delivers through the bounded-retry wrapper with at
most 5 attempts and a fixed 1000ms delay between consecutive attempts;
when every attempt fails the failure propagates (delivered is false), and
when the first success is at attempt k with k at most 5 the call succeeds
after exactly k attempts. The wrapper itself is modelled from the spec,
its body (runtime/util.ts) not being among the sources. -/
theorem c5_submit_bounded_retry
    (status : CfnStatus) (event : CfnEvent)
    (options : CloudFormationResponseOptions) (transport : Nat → Bool) :
    (submitResponse status event options transport).attemptsMade ≤ 5 ∧
    (submitResponse status event options transport).sleeps =
      List.replicate
        ((submitResponse status event options transport).attemptsMade - 1) 1000 ∧
    ((∀ i, 1 ≤ i → i ≤ 5 → transport i = false) →
      (submitResponse status event options transport).delivered = false) ∧
    (∀ k, 1 ≤ k → k ≤ 5 →
      (∀ i, 1 ≤ i → i < k → transport i = false) → transport k = true →
      (submitResponse status event options transport).delivered = true ∧
      (submitResponse status event options transport).attemptsMade = k) := by
  have e1 : (submitResponse status event options transport).attemptsMade =
      (retryRun 1000 transport 4 1).1 := rfl
  have e2 : (submitResponse status event options transport).sleeps =
      (retryRun 1000 transport 4 1).2.1 := rfl
  have e3 : (submitResponse status event options transport).delivered =
      (retryRun 1000 transport 4 1).2.2 := rfl
  rw [e1, e2, e3]
  refine ⟨retryRun_fst_le 1000 transport 4 1,
    retryRun_sleeps_replicate 1000 transport 4 1, ?_, ?_⟩
  · intro h
    exact retryRun_all_fail 1000 transport 4 1
      (fun j hj1 hj2 => h j hj1 (by omega))
  · intro k hk1 hk5 hprev hk
    obtain ⟨ha, hb⟩ := retryRun_first_success 1000 transport 4 1 k hk1
      (by omega) (fun j hj1 hj2 => hprev j hj1 hj2) hk
    refine ⟨ha, ?_⟩
    rw [hb]
    omega

/-- Witness for C5: a transport failing on attempts 1 to 4 and succeeding
on attempt 5 makes the call succeed after exactly 5 attempts. -/
theorem c5_witness :
    (submitResponse CfnStatus.SUCCESS evScenario {} transportFifth).delivered =
      true ∧
    (submitResponse CfnStatus.SUCCESS evScenario {} transportFifth).attemptsMade =
      5 :=
  (c5_submit_bounded_retry CfnStatus.SUCCESS evScenario {} transportFifth).2.2.2
    5 (by decide) (by decide)
    (fun i _ h2 => by
      simp only [transportFifth, decide_eq_false_iff_not]
      omega)
    (by decide)

/-- C6: redactDataFromPayload keeps the key list of Data and replaces
every value by the fixed masking token, leaving every other field of the
payload unchanged; the embedding is pure, so the input payload itself is
untouched by construction, matching the deep copy the source makes. -/
theorem c6_redact_masks_values_keeps_keys (p : StatusPayload) :
    (redactDataFromPayload p).Data =
      Option.map (List.map (fun kv => (kv.1, "*****"))) p.Data ∧
    Option.map (List.map Prod.fst) (redactDataFromPayload p).Data =
      Option.map (List.map Prod.fst) p.Data ∧
    (redactDataFromPayload p).Status = p.Status ∧
    (redactDataFromPayload p).Reason = p.Reason ∧
    (redactDataFromPayload p).StackId = p.StackId ∧
    (redactDataFromPayload p).RequestId = p.RequestId ∧
    (redactDataFromPayload p).PhysicalResourceId = p.PhysicalResourceId ∧
    (redactDataFromPayload p).LogicalResourceId = p.LogicalResourceId ∧
    (redactDataFromPayload p).NoEcho = p.NoEcho := by
  cases hd : p.Data with
  | none => simp [redactDataFromPayload, hd]
  | some kvs => simp [redactDataFromPayload, hd, map_fst_mask]

/-- C7: for a non-Create event with a falsy physical resource id whose
inner handler fails with an ordinary error, safeHandler logs the
malformed-event message, rethrows nothing, leaves the physical resource
id unchanged (no sentinel assigned), and reports FAILED with a payload
whose PhysicalResourceId is the missing-id sentinel. -/
theorem c7_malformed_non_create_failure
    (inc : Bool) (block : CfnEvent → HandlerOutcome) (event : CfnEvent)
    (stack message : String)
    (hreq : event.RequestType = "Delete" ∨ event.RequestType = "Update")
    (hpid : jsFalsyStr event.PhysicalResourceId = true)
    (hblock : block event = HandlerOutcome.failure stack message) :
    (safeHandler inc block event).logs =
      [SafeLog.malformedEventMissingPhysicalResourceId] ∧
    (safeHandler inc block event).thrownRetry = none ∧
    (safeHandler inc block event).finalEvent.PhysicalResourceId =
      event.PhysicalResourceId ∧
    (safeHandler inc block event).responses =
      [(CfnStatus.FAILED, event,
        { reason := some (if inc then stack else message) })] ∧
    (buildPayload CfnStatus.FAILED event
        { reason := some (if inc then stack else message) }).PhysicalResourceId =
      MISSING_PHYSICAL_ID_MARKER := by
  have hne : ¬ event.RequestType = "Create" := by
    rcases hreq with h | h <;> rw [h] <;> decide
  have hnotsc : ¬ (event.RequestType = "Delete" ∧
      event.PhysicalResourceId = some CREATE_FAILED_PHYSICAL_ID_MARKER) := by
    rintro ⟨-, hp⟩
    exact jsFalsy_ne_create_failed_marker _ hpid hp
  simp [safeHandler, hnotsc, hblock, hpid, hne, buildPayload,
    jsOrStr_of_falsy _ _ hpid]

/-- Witness for C7 at a concrete Update event with no physical id and a
failing inner handler. -/
theorem c7_witness :
    (safeHandler true blockFails evUpdateNoPid).logs =
      [SafeLog.malformedEventMissingPhysicalResourceId] ∧
    (safeHandler true blockFails evUpdateNoPid).thrownRetry = none ∧
    (safeHandler true blockFails evUpdateNoPid).finalEvent.PhysicalResourceId =
      evUpdateNoPid.PhysicalResourceId ∧
    (safeHandler true blockFails evUpdateNoPid).responses =
      [(CfnStatus.FAILED, evUpdateNoPid,
        { reason := some (if true then "stacktrace" else "boom") })] ∧
    (buildPayload CfnStatus.FAILED evUpdateNoPid
        { reason := some (if true then "stacktrace" else "boom") }).PhysicalResourceId =
      MISSING_PHYSICAL_ID_MARKER :=
  c7_malformed_non_create_failure true blockFails evUpdateNoPid
    "stacktrace" "boom" (Or.inr rfl) rfl rfl

/-- Counterexample for C8 as stated: a Create event that already carries
the physical resource id "bucket" and whose inner handler fails produces
no log line at all from safeHandler, in particular no malformed-event
warning, while the claim asserts one is logged. -/
theorem c8_counterexample_no_malformed_warning :
    (safeHandler true blockFails evCreateWithPid).logs = [] ∧
    (safeHandler true blockFails evCreateWithPid).finalEvent.PhysicalResourceId =
      some "bucket" ∧
    (safeHandler true blockFails evCreateWithPid).responses.map (fun r => r.1) =
      [CfnStatus.FAILED] := by
  decide

/-- C8 amended: for every Create event whose inner handler fails with a
non-Retry error while a truthy physical resource id is already on the
event, safeHandler emits no log line at all (in particular no
malformed-event warning), does not assign the create-failed sentinel
(the event is unchanged), and issues a FAILED report. -/
theorem c8_create_with_pid_failure_silent
    (inc : Bool) (block : CfnEvent → HandlerOutcome) (event : CfnEvent)
    (stack message : String)
    (hreq : event.RequestType = "Create")
    (hpid : jsFalsyStr event.PhysicalResourceId = false)
    (hblock : block event = HandlerOutcome.failure stack message) :
    (safeHandler inc block event).logs = [] ∧
    (safeHandler inc block event).finalEvent = event ∧
    (safeHandler inc block event).responses =
      [(CfnStatus.FAILED, event,
        { reason := some (if inc then stack else message) })] := by
  have hnotsc : ¬ (event.RequestType = "Delete" ∧
      event.PhysicalResourceId = some CREATE_FAILED_PHYSICAL_ID_MARKER) := by
    rintro ⟨h, -⟩
    rw [hreq] at h
    exact absurd h (by decide)
  simp [safeHandler, hnotsc, hblock, hpid]

/-- Witness for C8 amended at a concrete Create event that already knows
a physical resource id. -/
theorem c8_witness :
    (safeHandler true blockFails evCreateWithPid).logs = [] ∧
    (safeHandler true blockFails evCreateWithPid).finalEvent = evCreateWithPid ∧
    (safeHandler true blockFails evCreateWithPid).responses =
      [(CfnStatus.FAILED, evCreateWithPid,
        { reason := some (if true then "stacktrace" else "boom") })] :=
  c8_create_with_pid_failure_silent true blockFails evCreateWithPid
    "stacktrace" "boom" rfl rfl rfl

/-- Counterexample for C9 as stated: for the scenario event with
ResponseURL http://x/y?t=1 the single logged URL is http://x//y?***, not
the original URL with only the query replaced (http://x/y?***): the
interpolation protocol//hostname/pathname inserts a slash although the
pathname already starts with one. -/
theorem c9_counterexample_logged_url_gains_slash :
    (submitResponse CfnStatus.FAILED evScenario { reason := some "boom" }
        (fun _ => true)).logs.map (fun l => l.url) = ["http://x//y?***"] ∧
    ¬ ("http://x//y?***" : String) = "http://x/y?***" := by
  decide

/-- C9 amended: submitResponse emits exactly one log line, whose URL is
protocol ++ "//" ++ hostname ++ "/" ++ pathname ++ "?***" for the parsed
callback URL — the query component is replaced by the redaction marker,
but the path gains a duplicated leading slash; on the scenario URL
http://x/y?t=1 the logged URL is http://x//y?***. -/
theorem c9_single_log_line_query_redacted
    (status : CfnStatus) (event : CfnEvent)
    (options : CloudFormationResponseOptions) (transport : Nat → Bool) :
    (submitResponse status event options transport).logs.map (fun l => l.url) =
      [loggingSafeUrlOf event.ResponseURL] ∧
    (submitResponse status event options transport).logs.length = 1 ∧
    loggingSafeUrlOf "http://x/y?t=1" = "http://x//y?***" := by
  refine ⟨?_, ?_, by decide⟩ <;>
    by_cases h : options.noEcho = some true <;>
    simp [submitResponse, h]

/-- C10: the empty string is treated like an absent value by the payload
construction: an empty event PhysicalResourceId yields the missing-id
sentinel, and an empty options.reason yields the stringified status. -/
theorem c10_empty_string_like_absent
    (status : CfnStatus) (event : CfnEvent)
    (options : CloudFormationResponseOptions) :
    (event.PhysicalResourceId = some "" →
      (buildPayload status event options).PhysicalResourceId =
        MISSING_PHYSICAL_ID_MARKER) ∧
    (options.reason = some "" →
      (buildPayload status event options).Reason = status.toStr) := by
  constructor <;> intro h <;>
    simp [buildPayload, jsOrStr, h, empty_string_isEmpty]

/-- Witness for C10 at a concrete event with an empty physical resource
id and an empty supplied reason. -/
theorem c10_witness :
    (buildPayload CfnStatus.SUCCESS evEmptyPid
      { reason := some "" }).PhysicalResourceId = MISSING_PHYSICAL_ID_MARKER ∧
    (buildPayload CfnStatus.SUCCESS evEmptyPid { reason := some "" }).Reason =
      CfnStatus.SUCCESS.toStr :=
  ⟨(c10_empty_string_like_absent CfnStatus.SUCCESS evEmptyPid
      { reason := some "" }).1 rfl,
   (c10_empty_string_like_absent CfnStatus.SUCCESS evEmptyPid
      { reason := some "" }).2 rfl⟩
